import Mathlib

/-!
Verification of the booking allocation and conflict-resolution core of a
desk-booking application (Supabase/PostgreSQL backend, helpers in
`src/lib/desk-helpers.ts`, schema in `src/supabase-schema.sql`).

The store state is a record of the three tables (`users`, `desks`,
`bookings`).  Calendar dates (`YYYY-MM-DD` strings in the source) are
modelled as integers counting days, which preserves the total order and
day arithmetic the code relies on.  The ambient authenticated user of the
source is passed as an explicit `userId` argument, and the clock as an
explicit `today` argument.  Presentation-only fields (desk location,
timestamps, joined display names) are omitted; every field a business rule
reads is kept.
-/

namespace WorkplaceBooking

/-- Booking status column: `status VARCHAR(20) CHECK (status IN ('active','cancelled'))`. -/
inductive BookingStatus where
  | active
  | cancelled
  deriving Repr, DecidableEq

/-- Desk row (table `desks`): identity, display name, soft-disable flag and
optional permanent assignment. -/
structure Desk where
  id : String
  name : String
  is_available : Bool
  assigned_to_user_id : Option String
  deriving Repr, DecidableEq

/-- Booking row (table `bookings`). -/
structure Booking where
  id : String
  user_id : String
  desk_id : String
  booking_date : Int
  status : BookingStatus
  notes : Option String
  deriving Repr, DecidableEq

/-- The persistent store: the three tables of the schema. -/
structure Store where
  users : List String
  desks : List Desk
  bookings : List Booking
  deriving Repr, DecidableEq

/-- Shape of a `PostgrestError` as the helpers use it: a message and an
optional code. -/
structure PError where
  message : String
  code : Option String
  deriving Repr, DecidableEq

/-- Error returned by the storage layer when `CHECK (booking_date >= CURRENT_DATE)`
fails (PostgreSQL class 23514). -/
def checkViolationError : PError :=
  { message := "new row for relation bookings violates check constraint"
    code := some "23514" }

/-- Error returned by the storage layer when `UNIQUE(desk_id, booking_date)`
fails (PostgreSQL class 23505). -/
def uniqueViolationError : PError :=
  { message := "duplicate key value violates unique constraint bookings_desk_id_booking_date_key"
    code := some "23505" }

/-- True when some row of the bookings table already occupies `(deskId, date)`;
this is the storage-level `UNIQUE(desk_id, booking_date)` test. -/
def bookingConflict (s : Store) (deskId : String) (date : Int) : Bool :=
  s.bookings.any (fun r => r.desk_id == deskId && r.booking_date == date)

/-- Storage-layer insert into `bookings`, applying the schema constraints
`CHECK (booking_date >= CURRENT_DATE)` and `UNIQUE(desk_id, booking_date)`
(src/supabase-schema.sql lines 28-44). -/
def insertBooking (today : Int) (b : Booking) (s : Store) : Except PError Store :=
  if b.booking_date < today then
    .error checkViolationError
  else if bookingConflict s b.desk_id b.booking_date then
    .error uniqueViolationError
  else
    .ok { s with bookings := b :: s.bookings }

/-- Self-healing profile creation (`ensureUserProfile`): insert the user row
when it is missing; the stored tables of desks and bookings are untouched. -/
def ensureUserProfile (userId : String) (s : Store) : Store :=
  if userId ∈ s.users then s else { s with users := userId :: s.users }

/-- Message of the `USER_HAS_ASSIGNED_DESK` rejection, carrying the assigned
desk's name (src/lib/desk-helpers.ts line 361). -/
def userHasAssignedDeskMessage (deskName : String) : String :=
  "You have a permanently assigned desk (" ++ deskName ++
    ") and cannot make additional bookings. Please contact your administrator if you need to change desks."

/-- Message of the `USER_BOOKING_LIMIT_EXCEEDED` rejection. -/
def userBookingLimitMessage : String :=
  "You already have a booking for this date. Only one booking per day is allowed."

/-- Message of the `DESK_PERMANENTLY_ASSIGNED` rejection, carrying the desk's
name (src/lib/desk-helpers.ts line 413). -/
def deskPermanentlyAssignedMessage (deskName : String) : String :=
  "This desk (" ++ deskName ++ ") is permanently assigned to another user and cannot be booked."

/-- True when the user already has an active booking on `date` on any desk:
the one-booking-per-day pre-check of `createBooking` (step 3). -/
def hasActiveBookingOn (s : Store) (userId : String) (date : Int) : Bool :=
  s.bookings.any (fun b => b.user_id == userId && b.booking_date == date && b.status == .active)

/-- The `notes || null` normalisation of the insert payload: an absent or
empty string becomes NULL. -/
def normalizeNotes : Option String → Option String
  | some n => if n = "" then none else some n
  | none => none

/-- The booking row the allocator submits to the store: status defaults to
active, notes are normalised. -/
def newBookingRow (newId userId deskId : String) (date : Int)
    (notes : Option String) : Booking :=
  { id := newId, user_id := userId, desk_id := deskId
    booking_date := date, status := .active, notes := normalizeNotes notes }

/-- Steps 2.5 to 4 of `createBooking`, operating on the store after the
profile has been self-healed. -/
def createBookingChecked (today : Int) (newId userId deskId : String) (date : Int)
    (notes : Option String) (s : Store) : Except PError Booking × Store :=
  -- Step 2.5: reject when the user holds any permanent desk assignment.
  match s.desks.find? (fun d => d.assigned_to_user_id == some userId) with
  | some d =>
      (.error { message := userHasAssignedDeskMessage d.name
                code := some "USER_HAS_ASSIGNED_DESK" }, s)
  | none =>
    -- Step 3: one booking per user per day (application-level pre-check).
    if hasActiveBookingOn s userId date then
      (.error { message := userBookingLimitMessage
                code := some "USER_BOOKING_LIMIT_EXCEEDED" }, s)
    else
      -- Step 3.5: fetch the target desk row (`.single()`).
      match s.desks.find? (fun d => d.id == deskId) with
      | none =>
          (.error { message := "JSON object requested, multiple (or no) rows returned"
                    code := some "PGRST116" }, s)
      | some desk =>
        if desk.assigned_to_user_id.isSome && desk.assigned_to_user_id != some userId then
          (.error { message := deskPermanentlyAssignedMessage desk.name
                    code := some "DESK_PERMANENTLY_ASSIGNED" }, s)
        else
          -- Step 4: insert; the storage constraints are the final arbiter.
          match insertBooking today (newBookingRow newId userId deskId date notes) s with
          | .ok s2 => (.ok (newBookingRow newId userId deskId date notes), s2)
          | .error e => (.error e, s)

/-- `createBooking(deskId, date, notes)` of src/lib/desk-helpers.ts lines
319-433, with the ambient authenticated user and clock made explicit, and a
fresh row id supplied by the caller.  Returns the result (created booking or
error) together with the post-state of the store. -/
def createBooking (today : Int) (newId userId deskId : String) (date : Int)
    (notes : Option String) (s0 : Store) : Except PError Booking × Store :=
  -- Step 1: ensure the user profile exists (self-healing).
  createBookingChecked today newId userId deskId date notes (ensureUserProfile userId s0)

/-- `cancelBooking(bookingId)`: unconditional hard delete of the row by id;
`success` is true whenever the store reports no error, which the delete of
zero rows does not (src/lib/desk-helpers.ts lines 446-455). -/
def cancelBooking (bookingId : String) (s : Store) : Bool × Store :=
  (true, { s with bookings := s.bookings.filter (fun b => b.id != bookingId) })

/-- Result record of the retention sweep. -/
structure CleanupResult where
  success : Bool
  deletedCount : Nat
  deriving Repr, DecidableEq

/-- `cleanupOldBookings(retentionDays)`: cutoff = today minus retentionDays,
delete every booking row with `booking_date < cutoff`, report the number of
deleted rows (src/lib/desk-helpers.ts lines 529-551). -/
def cleanupOldBookings (retentionDays : Nat) (today : Int) (s : Store) :
    CleanupResult × Store :=
  let cutoff : Int := today - (retentionDays : Int)
  let deleted := s.bookings.filter (fun b => b.booking_date < cutoff)
  ({ success := true, deletedCount := deleted.length },
   { s with bookings := s.bookings.filter (fun b => !(b.booking_date < cutoff)) })

/-- Insert an element into a list ordered by `le` (model of the store's
ORDER BY). -/
def insertSorted {α : Type} (le : α → α → Bool) (a : α) : List α → List α
  | [] => [a]
  | b :: bs => if le a b then a :: b :: bs else b :: insertSorted le a bs

/-- Sort a list by `le` (insertion sort; only the ordering contract of the
store's ORDER BY matters). -/
def sortWith {α : Type} (le : α → α → Bool) (l : List α) : List α :=
  l.foldr (insertSorted le) []

/-- `getAllDesks`: every desk with `is_available = true`, ordered by name
(src/lib/desk-helpers.ts lines 153-173). -/
def getAllDesks (s : Store) : List Desk :=
  sortWith (fun a b => a.name ≤ b.name) (s.desks.filter (fun d => d.is_available))

/-- `getBookingsForDate(date)`: the active bookings of exactly that date
(src/lib/desk-helpers.ts lines 186-202). -/
def getBookingsForDate (date : Int) (s : Store) : List Booking :=
  s.bookings.filter (fun b => b.booking_date == date && b.status == .active)

/-- The booking-by-desk-id lookup map of `getDesksWithStatus`: built by
iterating `Map.set`, so the last matching booking wins. -/
def lookupBookingByDesk (bookings : List Booking) (deskId : String) : Option Booking :=
  (bookings.filter (fun b => b.desk_id == deskId)).getLast?

/-- The five display statuses of `DeskWithStatus`. -/
inductive DeskStatus where
  | available
  | booked
  | my_booking
  | assigned
  | my_assigned
  deriving Repr, DecidableEq

/-- The status derivation of `getDesksWithStatus` (src/lib/desk-helpers.ts
lines 249-275): assignment beats booking beats available, and the `my_`
variants require a present viewing user matching the owner. -/
def deriveStatus (currentUserId : Option String) (desk : Desk)
    (booking : Option Booking) : DeskStatus :=
  match desk.assigned_to_user_id with
  | some owner =>
    match currentUserId with
    | some u => if owner == u then .my_assigned else .assigned
    | none => .assigned
  | none =>
    match booking with
    | some b =>
      match currentUserId with
      | some u => if b.user_id == u then .my_booking else .booked
      | none => .booked
    | none => .available

/-- A desk together with its derived display status. -/
structure DeskWithStatus where
  desk : Desk
  status : DeskStatus
  booking : Option Booking
  deriving Repr, DecidableEq

/-- `getDesksWithStatus(date, currentUserId)` (src/lib/desk-helpers.ts lines
221-294): combine the available desks with the active bookings of the date. -/
def getDesksWithStatus (date : Int) (currentUserId : Option String) (s : Store) :
    List DeskWithStatus :=
  let desks := getAllDesks s
  let bookings := getBookingsForDate date s
  desks.map (fun d =>
    let booking := lookupBookingByDesk bookings d.id
    { desk := d, status := deriveStatus currentUserId d booking, booking := booking })

/-- `getUserBookings(userId, limit)`: the user's active bookings in
chronological order, truncated to `limit` (src/lib/desk-helpers.ts lines
471-507). -/
def getUserBookings (userId : String) (lim : Nat) (s : Store) : List Booking :=
  (sortWith (fun a b => a.booking_date ≤ b.booking_date)
    (s.bookings.filter (fun b => b.status == .active && b.user_id == userId))).take lim

/-- Output record of `getUserBookingsWithCleanup`: the bookings read and, when
the sweep deleted anything, the deleted count. -/
structure WithCleanupOutput where
  bookings : List Booking
  cleanupDeleted : Option Nat
  deriving Repr, DecidableEq

/-- `getUserBookingsWithCleanup(userId, limit, autoCleanup)` over the store
state (src/lib/desk-helpers.ts lines 572-598): run the 90-day sweep first
(when enabled), then read the user's bookings from the purged store. -/
def getUserBookingsWithCleanup (userId : String) (lim : Nat) (autoCleanup : Bool)
    (today : Int) (s : Store) : WithCleanupOutput × Store :=
  if autoCleanup then
    let cr := cleanupOldBookings 90 today s
    ({ bookings := getUserBookings userId lim cr.2
       cleanupDeleted := if cr.1.success && cr.1.deletedCount > 0 then some cr.1.deletedCount else none },
     cr.2)
  else
    ({ bookings := getUserBookings userId lim s, cleanupDeleted := none }, s)

/-- Outcome of the sweep as `getUserBookingsWithCleanup` receives it,
including a possible store error. -/
structure PurgeOutcome where
  success : Bool
  deletedCount : Nat
  error : Option PError
  deriving Repr, DecidableEq

/-- Outcome of the `getUserBookings` read, including a possible store error. -/
structure ReadOutcome where
  bookings : List Booking
  error : Option PError
  deriving Repr, DecidableEq

/-- The caller-facing result of `getUserBookingsWithCleanup`. -/
structure ListBookingsResult where
  bookings : List Booking
  cleanupDeleted : Option Nat
  error : Option PError
  deriving Repr, DecidableEq

/-- The result-combination logic of `getUserBookingsWithCleanup`
(src/lib/desk-helpers.ts lines 580-597), parametric in the two sub-call
outcomes: the cleanup result is kept only on a successful non-empty sweep,
and the surfaced error is the read's error alone. -/
def combineCleanupRead (autoCleanup : Bool) (purge : PurgeOutcome)
    (read : ReadOutcome) : ListBookingsResult :=
  { bookings := read.bookings
    cleanupDeleted :=
      if autoCleanup && purge.success && purge.deletedCount > 0 then
        some purge.deletedCount
      else none
    error := read.error }

/-- The operations that mutate the bookings table: book, cancel, purge. -/
inductive Op where
  | book (today : Int) (newId userId deskId : String) (date : Int) (notes : Option String)
  | cancel (bookingId : String)
  | purge (retentionDays : Nat) (today : Int)
  deriving Repr, DecidableEq

/-- Apply one operation to the store, keeping the post-state whether the
operation succeeded or was rejected. -/
def applyOp (s : Store) : Op → Store
  | .book today newId userId deskId date notes =>
      (createBooking today newId userId deskId date notes s).2
  | .cancel bookingId => (cancelBooking bookingId s).2
  | .purge retentionDays today => (cleanupOldBookings retentionDays today s).2

/-- Run a sequence of operations. -/
def runOps (s : Store) (ops : List Op) : Store := ops.foldl applyOp s

/-- The storage invariant of `UNIQUE(desk_id, booking_date)`: no two rows of
the bookings table share a desk and a date. -/
def DeskDateDistinct (s : Store) : Prop :=
  s.bookings.Pairwise (fun a b => a.desk_id ≠ b.desk_id ∨ a.booking_date ≠ b.booking_date)

instance (s : Store) : Decidable (DeskDateDistinct s) := by
  unfold DeskDateDistinct
  infer_instance

/-- The active bookings of a given desk and date. -/
def activeBookingsFor (s : Store) (deskId : String) (date : Int) : List Booking :=
  s.bookings.filter (fun b => b.desk_id == deskId && b.booking_date == date && b.status == .active)

/-- Profile creation touches only the users table: desks are unchanged. -/
theorem ensureUserProfile_desks (userId : String) (s : Store) :
    (ensureUserProfile userId s).desks = s.desks := by
  unfold ensureUserProfile; split <;> rfl

/-- Profile creation touches only the users table: bookings are unchanged. -/
theorem ensureUserProfile_bookings (userId : String) (s : Store) :
    (ensureUserProfile userId s).bookings = s.bookings := by
  unfold ensureUserProfile; split <;> rfl

/-- Membership through ordered insertion. -/
theorem mem_insertSorted {α : Type} (le : α → α → Bool) (a x : α) (l : List α) :
    x ∈ insertSorted le a l ↔ x = a ∨ x ∈ l := by
  induction l with
  | nil => simp [insertSorted]
  | cons b bs ih =>
    simp only [insertSorted]
    split
    · simp [List.mem_cons]
    · simp only [List.mem_cons, ih]
      tauto

/-- Sorting does not change membership. -/
theorem mem_sortWith {α : Type} (le : α → α → Bool) (x : α) (l : List α) :
    x ∈ sortWith le l ↔ x ∈ l := by
  induction l with
  | nil => simp [sortWith]
  | cons b bs ih =>
    simp only [sortWith, List.foldr] at ih ⊢
    rw [mem_insertSorted]
    simp only [List.mem_cons, ih]

/-- In a pairwise `R`-related list, a predicate that forbids `R` between any
two of its holders selects at most one element. -/
theorem filter_length_le_one {α : Type} {R : α → α → Prop} (p : α → Bool)
    (hR : ∀ x y, p x = true → p y = true → ¬ R x y) :
    ∀ l : List α, l.Pairwise R → (l.filter p).length ≤ 1 := by
  intro l hl
  induction l with
  | nil => simp
  | cons a t ih =>
    rw [List.pairwise_cons] at hl
    obtain ⟨ha, ht⟩ := hl
    by_cases hpa : p a = true
    · rw [List.filter_cons_of_pos hpa]
      have hnil : t.filter p = [] := by
        rw [List.filter_eq_nil_iff]
        intro x hx hpx
        exact hR a x hpa hpx (ha x hx)
      rw [hnil]
      simp
    · rw [List.filter_cons_of_neg (by simpa using hpa)]
      exact ih ht

/-- In a pairwise `R`-related list, a predicate whose holders are all
`R`-unrelated to a member `b` that holds it selects exactly `[b]`. -/
theorem filter_eq_singleton_of_pairwise {α : Type} {R : α → α → Prop} (p : α → Bool)
    (b : α) : ∀ l : List α, l.Pairwise R → b ∈ l → p b = true →
    (∀ x ∈ l, p x = true → ¬ R b x ∧ ¬ R x b) → l.filter p = [b] := by
  intro l hl hb hpb hsym
  induction l with
  | nil => cases hb
  | cons a t ih =>
    rw [List.pairwise_cons] at hl
    obtain ⟨ha, ht⟩ := hl
    rcases List.mem_cons.mp hb with rfl | hbt
    · rw [List.filter_cons_of_pos hpb]
      have hnil : t.filter p = [] := by
        rw [List.filter_eq_nil_iff]
        intro x hx hpx
        exact (hsym x (List.mem_cons_of_mem _ hx) hpx).1 (ha x hx)
      rw [hnil]
    · have hpa : ¬ p a = true := by
        intro hpa
        exact (hsym a (List.mem_cons_self a t) hpa).2 (ha b hbt)
      rw [List.filter_cons_of_neg (by simpa using hpa)]
      exact ih ht hbt fun x hx hpx => hsym x (List.mem_cons_of_mem _ hx) hpx

/-- The bookings loaded for a date inherit the storage uniqueness invariant. -/
theorem getBookingsForDate_pairwise (date : Int) (s : Store)
    (hs : DeskDateDistinct s) :
    (getBookingsForDate date s).Pairwise
      (fun a b => a.desk_id ≠ b.desk_id ∨ a.booking_date ≠ b.booking_date) :=
  List.Pairwise.sublist (List.filter_sublist _) hs

/-- Under the storage uniqueness invariant, the booking-by-desk lookup of the
resolver finds exactly the active booking of that desk and date. -/
theorem lookupBookingByDesk_eq_some (date : Int) (s : Store) (b : Booking)
    (hs : DeskDateDistinct s) (hb : b ∈ s.bookings) (hdate : b.booking_date = date)
    (hact : b.status = .active) :
    lookupBookingByDesk (getBookingsForDate date s) b.desk_id = some b := by
  have hmem : b ∈ getBookingsForDate date s := by
    simp [getBookingsForDate, List.mem_filter, hb, hdate, hact]
  have hsingle :
      (getBookingsForDate date s).filter (fun x => x.desk_id == b.desk_id) = [b] := by
    apply filter_eq_singleton_of_pairwise _ b _ (getBookingsForDate_pairwise date s hs)
      hmem (by simp)
    intro x hx hpx
    have hxdate : x.booking_date = date ∧ x.status = BookingStatus.active := by
      have hx2 : x ∈ s.bookings ∧ x.booking_date = date ∧ x.status = BookingStatus.active := by
        simpa [getBookingsForDate, List.mem_filter, and_assoc] using hx
      exact hx2.2
    have hxdesk : x.desk_id = b.desk_id := by simpa using hpx
    constructor
    · rintro (h1 | h2)
      · exact h1 hxdesk.symm
      · exact h2 (hdate.trans hxdate.1.symm)
    · rintro (h1 | h2)
      · exact h1 hxdesk
      · exact h2 (hxdate.1.trans hdate.symm)
  unfold lookupBookingByDesk
  rw [hsingle]
  rfl

/-- When no active booking of the desk exists for the date, the resolver's
lookup is empty. -/
theorem lookupBookingByDesk_eq_none (date : Int) (s : Store) (deskId : String)
    (hnone : ∀ b ∈ s.bookings,
      ¬(b.desk_id = deskId ∧ b.booking_date = date ∧ b.status = BookingStatus.active)) :
    lookupBookingByDesk (getBookingsForDate date s) deskId = none := by
  have hnil : (getBookingsForDate date s).filter (fun x => x.desk_id == deskId) = [] := by
    rw [List.filter_eq_nil_iff]
    intro x hx hpx
    have hx' : x ∈ s.bookings ∧ x.booking_date = date ∧ x.status = BookingStatus.active := by
      simpa [getBookingsForDate, List.mem_filter, and_assoc] using hx
    exact hnone x hx'.1 ⟨by simpa using hpx, hx'.2.1, hx'.2.2⟩
  unfold lookupBookingByDesk
  rw [hnil]
  rfl

/-- Characterisation of the resolver's output rows: each comes from a stored,
available desk, with status and booking derived from that date's lookup. -/
theorem mem_getDesksWithStatus (date : Int) (uid : Option String) (s : Store)
    (dv : DeskWithStatus) :
    dv ∈ getDesksWithStatus date uid s ↔
      ∃ d, d ∈ s.desks ∧ d.is_available = true ∧
        dv = { desk := d
               status := deriveStatus uid d (lookupBookingByDesk (getBookingsForDate date s) d.id)
               booking := lookupBookingByDesk (getBookingsForDate date s) d.id } := by
  simp only [getDesksWithStatus, List.mem_map]
  constructor
  · rintro ⟨d, hd, rfl⟩
    have hd' : d ∈ s.desks ∧ d.is_available = true := by
      have h1 := (mem_sortWith _ d _).mp hd
      simpa [List.mem_filter] using h1
    exact ⟨d, hd'.1, hd'.2, rfl⟩
  · rintro ⟨d, hd1, hd2, rfl⟩
    refine ⟨d, ?_, rfl⟩
    rw [getAllDesks, mem_sortWith]
    simp [List.mem_filter, hd1, hd2]

/-- A successful storage insert preserves the `(desk_id, booking_date)`
uniqueness invariant: the constraint has just checked the new row. -/
theorem insertBooking_ok_distinct (today : Int) (b : Booking) (s s' : Store)
    (hs : DeskDateDistinct s) (h : insertBooking today b s = .ok s') :
    DeskDateDistinct s' := by
  unfold insertBooking at h
  split at h
  · cases h
  · split at h
    next hc => cases h
    next hc =>
      cases h
      refine List.pairwise_cons.mpr ⟨?_, hs⟩
      intro r hr
      by_contra hcon
      push_neg at hcon
      apply hc
      simp only [bookingConflict, List.any_eq_true]
      exact ⟨r, hr, by simp [hcon.1, hcon.2]⟩

/-- The post-state of the checked booking path is either the pre-state or the
result of a successful constrained insert. -/
theorem createBookingChecked_snd_cases (today : Int) (newId userId deskId : String)
    (date : Int) (notes : Option String) (s : Store) :
    (createBookingChecked today newId userId deskId date notes s).2 = s ∨
      insertBooking today (newBookingRow newId userId deskId date notes) s =
        .ok (createBookingChecked today newId userId deskId date notes s).2 := by
  unfold createBookingChecked
  split
  · left; rfl
  · split
    · left; rfl
    · split
      · left; rfl
      · split
        · left; rfl
        · split
          next s2 heq => right; rw [heq]
          next => left; rfl

/-- The post-state of `createBooking` is either the pre-state (with the
self-healed profile) or the result of a successful constrained insert. -/
theorem createBooking_snd_cases (today : Int) (newId userId deskId : String)
    (date : Int) (notes : Option String) (s : Store) :
    (createBooking today newId userId deskId date notes s).2 = ensureUserProfile userId s ∨
      insertBooking today (newBookingRow newId userId deskId date notes)
        (ensureUserProfile userId s) =
        .ok (createBooking today newId userId deskId date notes s).2 :=
  createBookingChecked_snd_cases today newId userId deskId date notes
    (ensureUserProfile userId s)

/-- Cancellation (a filter of the bookings table) preserves the uniqueness
invariant. -/
theorem cancelBooking_distinct (bookingId : String) (s : Store)
    (hs : DeskDateDistinct s) : DeskDateDistinct (cancelBooking bookingId s).2 :=
  List.Pairwise.sublist (List.filter_sublist _) hs

/-- The retention sweep (a filter of the bookings table) preserves the
uniqueness invariant. -/
theorem cleanupOldBookings_distinct (retentionDays : Nat) (today : Int) (s : Store)
    (hs : DeskDateDistinct s) :
    DeskDateDistinct (cleanupOldBookings retentionDays today s).2 :=
  List.Pairwise.sublist (List.filter_sublist _) hs

/-- Booking preserves the uniqueness invariant. -/
theorem createBooking_distinct (today : Int) (newId userId deskId : String)
    (date : Int) (notes : Option String) (s : Store) (hs : DeskDateDistinct s) :
    DeskDateDistinct (createBooking today newId userId deskId date notes s).2 := by
  have hs1 : DeskDateDistinct (ensureUserProfile userId s) := by
    unfold DeskDateDistinct
    rw [ensureUserProfile_bookings]
    exact hs
  rcases createBooking_snd_cases today newId userId deskId date notes s with h | h
  · rw [h]; exact hs1
  · exact insertBooking_ok_distinct today _ _ _ hs1 h

/-- Every operation preserves the uniqueness invariant. -/
theorem applyOp_distinct (s : Store) (op : Op) (hs : DeskDateDistinct s) :
    DeskDateDistinct (applyOp s op) := by
  cases op with
  | book today newId userId deskId date notes =>
      exact createBooking_distinct today newId userId deskId date notes s hs
  | cancel bookingId => exact cancelBooking_distinct bookingId s hs
  | purge retentionDays today => exact cleanupOldBookings_distinct retentionDays today s hs

/-- Any sequence of operations preserves the uniqueness invariant. -/
theorem runOps_distinct (ops : List Op) : ∀ s : Store, DeskDateDistinct s →
    DeskDateDistinct (runOps s ops) := by
  induction ops with
  | nil => intro s hs; exact hs
  | cons op rest ih =>
      intro s hs
      exact ih (applyOp s op) (applyOp_distinct s op hs)

/-- Under the uniqueness invariant, at most one active booking exists for any
desk and date. -/
theorem activeBookingsFor_length_le_one (s : Store) (hs : DeskDateDistinct s)
    (deskId : String) (date : Int) :
    (activeBookingsFor s deskId date).length ≤ 1 := by
  apply filter_length_le_one _ ?_ s.bookings hs
  intro x y hx hy
  simp only [Bool.and_eq_true, beq_iff_eq] at hx hy
  rintro (hne | hne)
  · exact hne (hx.1.1.trans hy.1.1.symm)
  · exact hne (hx.1.2.trans hy.1.2.symm)

/-- C1: for every desk and date, after any sequence of book, cancel and purge
operations from a store satisfying the storage uniqueness constraint, at most
one active booking exists for the pair; and when two booking requests race
past the application-level checks for the same desk and date, the storage
constraint arbitrates: the first insert succeeds and the second fails with a
uniqueness violation (code 23505). -/
theorem c1_desk_date_uniqueness (s : Store) (ops : List Op) (hs : DeskDateDistinct s) :
    DeskDateDistinct (runOps s ops) ∧
    (∀ deskId date, (activeBookingsFor (runOps s ops) deskId date).length ≤ 1) ∧
    (∀ today (b c : Booking), b.desk_id = c.desk_id → b.booking_date = c.booking_date →
      today ≤ b.booking_date → today ≤ c.booking_date →
      bookingConflict (runOps s ops) b.desk_id b.booking_date = false →
      insertBooking today b (runOps s ops) =
        .ok { runOps s ops with bookings := b :: (runOps s ops).bookings } ∧
      insertBooking today c { runOps s ops with bookings := b :: (runOps s ops).bookings } =
        .error uniqueViolationError) := by
  have hrun := runOps_distinct ops s hs
  refine ⟨hrun, fun deskId date => activeBookingsFor_length_le_one _ hrun deskId date, ?_⟩
  intro today b c hdesk hdate hb hc hconf
  constructor
  · unfold insertBooking
    rw [if_neg (by omega), hconf]
    simp
  · unfold insertBooking
    rw [if_neg (by omega)]
    have hc2 : bookingConflict
        { runOps s ops with bookings := b :: (runOps s ops).bookings }
        c.desk_id c.booking_date = true := by
      simp [bookingConflict, hdesk, hdate]
    rw [hc2]
    simp

/-- Concrete desk for the C1 witness. -/
def c1Desk : Desk :=
  { id := "dA", name := "A01", is_available := true, assigned_to_user_id := none }

/-- Concrete store for the C1 witness: one desk, one booking by u1 on day 100. -/
def c1Store : Store :=
  { users := ["u1", "u2"]
    desks := [c1Desk]
    bookings := [{ id := "b0", user_id := "u1", desk_id := "dA", booking_date := 100
                   status := .active, notes := none }] }

/-- Concrete operation sequence for the C1 witness: a conflicting booking
attempt, a cancel of an unknown id, and a purge that deletes nothing. -/
def c1Ops : List Op :=
  [Op.book 100 "b9" "u2" "dA" 100 none, Op.cancel "zz", Op.purge 90 100]

/-- First racing row of the C1 witness. -/
def c1RaceB : Booking :=
  { id := "r1", user_id := "u1", desk_id := "dA", booking_date := 150
    status := .active, notes := none }

/-- Second racing row of the C1 witness. -/
def c1RaceC : Booking :=
  { id := "r2", user_id := "u2", desk_id := "dA", booking_date := 150
    status := .active, notes := none }

/-- Witness for C1 at a concrete store, operation sequence and pair of racing
inserts. -/
theorem c1_desk_date_uniqueness_witness :
    DeskDateDistinct (runOps c1Store c1Ops) ∧
    (activeBookingsFor (runOps c1Store c1Ops) "dA" 100).length ≤ 1 ∧
    insertBooking 120 c1RaceB (runOps c1Store c1Ops) =
      .ok { runOps c1Store c1Ops with bookings := c1RaceB :: (runOps c1Store c1Ops).bookings } ∧
    insertBooking 120 c1RaceC
      { runOps c1Store c1Ops with bookings := c1RaceB :: (runOps c1Store c1Ops).bookings } =
      .error uniqueViolationError := by
  have h := c1_desk_date_uniqueness c1Store c1Ops (by decide)
  have hr := h.2.2 120 c1RaceB c1RaceC rfl rfl (by decide) (by decide) (by decide)
  exact ⟨h.1, h.2.1 "dA" 100, hr.1, hr.2⟩

/-- C2: every desk in the resolver's output derives its status by priority:
a permanent assignment yields my_assigned for the assignee viewer and assigned
otherwise; else an active booking of the desk on the date yields my_booking
for the owner viewer and booked otherwise; else available.  Consequently an
assigned desk never shows status booked, and an absent viewer id never yields
my_booking or my_assigned. -/
theorem c2_resolver_status_priority (date : Int) (uid : Option String) (s : Store)
    (hs : DeskDateDistinct s) :
    ∀ dv ∈ getDesksWithStatus date uid s,
      (∀ owner, dv.desk.assigned_to_user_id = some owner →
        dv.status = if uid = some owner then DeskStatus.my_assigned else DeskStatus.assigned) ∧
      (dv.desk.assigned_to_user_id = none →
        ∀ b ∈ s.bookings, b.desk_id = dv.desk.id → b.booking_date = date →
          b.status = BookingStatus.active →
          dv.status = if uid = some b.user_id then DeskStatus.my_booking else DeskStatus.booked) ∧
      (dv.desk.assigned_to_user_id = none →
        (∀ b ∈ s.bookings, ¬(b.desk_id = dv.desk.id ∧ b.booking_date = date ∧
          b.status = BookingStatus.active)) →
        dv.status = DeskStatus.available) ∧
      (dv.desk.assigned_to_user_id.isSome = true → dv.status ≠ DeskStatus.booked) ∧
      (uid = none → dv.status ≠ DeskStatus.my_booking ∧ dv.status ≠ DeskStatus.my_assigned) := by
  intro dv hdv
  rw [mem_getDesksWithStatus] at hdv
  obtain ⟨d, hd, hav, rfl⟩ := hdv
  refine ⟨?_, ?_, ?_, ?_, ?_⟩
  · intro owner howner
    dsimp only at howner ⊢
    cases uid with
    | none => simp [deriveStatus, howner]
    | some u =>
      by_cases hu : owner = u
      · simp [deriveStatus, howner, hu]
      · simp [deriveStatus, howner, hu, Ne.symm hu]
  · intro hnone b hb hdesk hdate hact
    dsimp only at hnone hdesk ⊢
    have hlook := lookupBookingByDesk_eq_some date s b hs hb hdate hact
    rw [hdesk] at hlook
    cases uid with
    | none => simp [deriveStatus, hnone, hlook]
    | some u =>
      by_cases hu : b.user_id = u
      · simp [deriveStatus, hnone, hlook, hu]
      · simp [deriveStatus, hnone, hlook, hu, Ne.symm hu]
  · intro hnone hnob
    dsimp only at hnone hnob ⊢
    rw [lookupBookingByDesk_eq_none date s d.id hnob]
    simp [deriveStatus, hnone]
  · intro hassigned
    dsimp only at hassigned ⊢
    obtain ⟨owner, howner⟩ := Option.isSome_iff_exists.mp hassigned
    cases uid with
    | none => simp [deriveStatus, howner]
    | some u =>
      by_cases hu : owner = u <;> simp [deriveStatus, howner, hu]
  · rintro rfl
    dsimp only
    cases hassign : d.assigned_to_user_id with
    | some owner => simp [deriveStatus, hassign]
    | none =>
      cases hlook : lookupBookingByDesk (getBookingsForDate date s) d.id with
      | some b => simp [deriveStatus, hassign, hlook]
      | none => simp [deriveStatus, hassign, hlook]

/-- Concrete desks for the C2 witness: one assigned to u1, one free. -/
def c2DeskAssigned : Desk :=
  { id := "dC", name := "C05", is_available := true, assigned_to_user_id := some "u1" }

/-- Concrete store for the C2 witness. -/
def c2Store : Store :=
  { users := ["u1"], desks := [c2DeskAssigned], bookings := [] }

/-- The resolver row of the C2 witness store for viewer u1. -/
def c2View : DeskWithStatus :=
  { desk := c2DeskAssigned, status := DeskStatus.my_assigned, booking := none }

/-- Witness for C2: the assigned desk of the concrete store resolves to
my_assigned for its assignee. -/
theorem c2_resolver_status_priority_witness :
    c2View.status =
      if (some "u1" : Option String) = some "u1" then DeskStatus.my_assigned
      else DeskStatus.assigned := by
  have h := c2_resolver_status_priority 100 (some "u1") c2Store (by decide)
  have hm : c2View ∈ getDesksWithStatus 100 (some "u1") c2Store := by decide
  exact (h c2View hm).1 "u1" (by decide)

/-- The one-booking-per-day pre-check is insensitive to profile self-healing. -/
theorem hasActiveBookingOn_ensureUserProfile (u v : String) (date : Int) (s : Store) :
    hasActiveBookingOn (ensureUserProfile u s) v date = hasActiveBookingOn s v date := by
  unfold hasActiveBookingOn
  rw [ensureUserProfile_bookings]

/-- The error code of an allocator result, if any. -/
def resultCode (r : Except PError Booking) : Option String :=
  match r with
  | .error e => e.code
  | .ok _ => none

/-- A desk of the resolver's output with no assignment and no active booking
of its desk on the date shows as available. -/
theorem resolver_status_available (date : Int) (uid : Option String) (s : Store)
    (dv : DeskWithStatus) (hdv : dv ∈ getDesksWithStatus date uid s)
    (hassign : dv.desk.assigned_to_user_id = none)
    (hnob : ∀ b ∈ s.bookings,
      ¬(b.desk_id = dv.desk.id ∧ b.booking_date = date ∧ b.status = BookingStatus.active)) :
    dv.status = DeskStatus.available := by
  rw [mem_getDesksWithStatus] at hdv
  obtain ⟨d, hd, hav, rfl⟩ := hdv
  dsimp only at hassign hnob ⊢
  rw [lookupBookingByDesk_eq_none date s d.id hnob]
  simp [deriveStatus, hassign]

/-- C3: a user who holds any permanent desk assignment is rejected with
USER_HAS_ASSIGNED_DESK, with the assigned desk's name in the message, for
every target desk and date, including the user's own assigned desk, and
before the one-booking-per-day check (no hypothesis about existing bookings
is needed); no booking row is inserted. -/
theorem c3_user_has_assigned_desk_rejection (today : Int) (newId userId deskId : String)
    (date : Int) (notes : Option String) (s : Store)
    (h : ∃ d ∈ s.desks, d.assigned_to_user_id = some userId) :
    ∃ d ∈ s.desks, d.assigned_to_user_id = some userId ∧
      (createBooking today newId userId deskId date notes s).1 =
        .error { message := userHasAssignedDeskMessage d.name
                 code := some "USER_HAS_ASSIGNED_DESK" } ∧
      (createBooking today newId userId deskId date notes s).2.bookings = s.bookings ∧
      (createBooking today newId userId deskId date notes s).2.desks = s.desks := by
  have hex : ∃ x, x ∈ (ensureUserProfile userId s).desks ∧
      (x.assigned_to_user_id == some userId) = true := by
    obtain ⟨d, hd, hda⟩ := h
    exact ⟨d, by rw [ensureUserProfile_desks]; exact hd, by simp [hda]⟩
  have hsome : ((ensureUserProfile userId s).desks.find?
      (fun d => d.assigned_to_user_id == some userId)).isSome := List.find?_isSome.mpr hex
  obtain ⟨d0, hfind0⟩ := Option.isSome_iff_exists.mp hsome
  have hfind : s.desks.find? (fun d => d.assigned_to_user_id == some userId) = some d0 := by
    rw [← ensureUserProfile_desks userId s]
    exact hfind0
  have hd0mem : d0 ∈ s.desks := List.mem_of_find?_eq_some hfind
  have hd0p : d0.assigned_to_user_id = some userId := by
    simpa using List.find?_some hfind
  refine ⟨d0, hd0mem, hd0p, ?_, ?_, ?_⟩ <;>
    simp [createBooking, createBookingChecked, hfind, ensureUserProfile_desks,
      ensureUserProfile_bookings]

/-- Desk permanently assigned to u1 in the C3 witness store. -/
def c3AssignedDesk : Desk :=
  { id := "dC", name := "C05", is_available := true, assigned_to_user_id := some "u1" }

/-- C3 witness store: u1 holds an assignment and also an active booking on
day 10, so the rejection shown precedes the one-booking-per-day check. -/
def c3Store : Store :=
  { users := ["u1"]
    desks := [c3AssignedDesk]
    bookings := [{ id := "b0", user_id := "u1", desk_id := "dB", booking_date := 10
                   status := .active, notes := none }] }

/-- Witness for C3: u1 books their own assigned desk on the day they already
booked elsewhere and is still rejected with USER_HAS_ASSIGNED_DESK. -/
theorem c3_user_has_assigned_desk_rejection_witness :
    (createBooking 0 "b1" "u1" "dC" 10 none c3Store).1 =
      .error { message := userHasAssignedDeskMessage "C05"
               code := some "USER_HAS_ASSIGNED_DESK" } ∧
    hasActiveBookingOn c3Store "u1" 10 = true := by
  obtain ⟨d, hd, hda, hres, hbk, hdk⟩ :=
    c3_user_has_assigned_desk_rejection 0 "b1" "u1" "dC" 10 none c3Store
      ⟨c3AssignedDesk, by decide, by decide⟩
  have hde : d = c3AssignedDesk := by
    have := List.mem_singleton.mp hd
    exact this
  rw [hde] at hres
  exact ⟨hres, by decide⟩

/-- C4 (amended): for a user who holds no permanent desk assignment and
already has an active booking for the requested date on any desk, book
returns USER_BOOKING_LIMIT_EXCEEDED, inserts no booking row, leaves desks
and bookings unchanged, and the target desk still resolves as available
afterwards (absent other bookings or assignments). -/
theorem c4_user_booking_limit_exceeded (today : Int) (newId userId deskId : String)
    (date : Int) (notes : Option String) (s : Store)
    (hna : ∀ d ∈ s.desks, d.assigned_to_user_id ≠ some userId)
    (hb : hasActiveBookingOn s userId date = true) :
    (createBooking today newId userId deskId date notes s).1 =
      .error { message := userBookingLimitMessage
               code := some "USER_BOOKING_LIMIT_EXCEEDED" } ∧
    (createBooking today newId userId deskId date notes s).2.bookings = s.bookings ∧
    (createBooking today newId userId deskId date notes s).2.desks = s.desks ∧
    (∀ uid dv, dv ∈ getDesksWithStatus date uid
        (createBooking today newId userId deskId date notes s).2 →
      dv.desk.id = deskId → dv.desk.assigned_to_user_id = none →
      (∀ b ∈ s.bookings,
        ¬(b.desk_id = dv.desk.id ∧ b.booking_date = date ∧ b.status = BookingStatus.active)) →
      dv.status = DeskStatus.available) := by
  have hfind : s.desks.find? (fun d => d.assigned_to_user_id == some userId) = none := by
    apply List.find?_eq_none.mpr
    intro x hx
    simpa using hna x hx
  have h1 : (createBooking today newId userId deskId date notes s).1 =
      .error { message := userBookingLimitMessage
               code := some "USER_BOOKING_LIMIT_EXCEEDED" } := by
    simp [createBooking, createBookingChecked, hfind, hasActiveBookingOn_ensureUserProfile,
      hb, ensureUserProfile_desks]
  have h2 : (createBooking today newId userId deskId date notes s).2.bookings = s.bookings := by
    simp [createBooking, createBookingChecked, hfind, hasActiveBookingOn_ensureUserProfile,
      hb, ensureUserProfile_desks, ensureUserProfile_bookings]
  have h3 : (createBooking today newId userId deskId date notes s).2.desks = s.desks := by
    simp [createBooking, createBookingChecked, hfind, hasActiveBookingOn_ensureUserProfile,
      hb, ensureUserProfile_desks]
  refine ⟨h1, h2, h3, ?_⟩
  intro uid dv hdv hid hassign hnob
  apply resolver_status_available date uid _ dv hdv hassign
  rw [h2]
  intro b hbmem
  exact hnob b hbmem

/-- Free desk of the C4 stores. -/
def c4Desk : Desk :=
  { id := "dA", name := "A01", is_available := true, assigned_to_user_id := none }

/-- C4 witness store: u1 has an active booking on day 10 on another desk and
no permanent assignment. -/
def c4Store : Store :=
  { users := ["u1"]
    desks := [c4Desk]
    bookings := [{ id := "b0", user_id := "u1", desk_id := "dB", booking_date := 10
                   status := .active, notes := none }] }

/-- The resolver row of the target desk after the rejected C4 attempt. -/
def c4View : DeskWithStatus :=
  { desk := c4Desk, status := DeskStatus.available, booking := none }

/-- Witness for C4 (amended) at a concrete store. -/
theorem c4_user_booking_limit_exceeded_witness :
    (createBooking 0 "b9" "u1" "dA" 10 none c4Store).1 =
      .error { message := userBookingLimitMessage
               code := some "USER_BOOKING_LIMIT_EXCEEDED" } ∧
    (createBooking 0 "b9" "u1" "dA" 10 none c4Store).2.bookings = c4Store.bookings ∧
    c4View.status = DeskStatus.available := by
  have h := c4_user_booking_limit_exceeded 0 "b9" "u1" "dA" 10 none c4Store
    (by decide) (by decide)
  refine ⟨h.1, h.2.1, ?_⟩
  exact h.2.2.2 (some "u1") c4View (by decide) (by decide) (by decide) (by decide)

/-- Store of the C4 counterexample: u1 holds a permanent assignment and an
active booking on day 10. -/
def c4CeStore : Store :=
  { users := ["u1"]
    desks := [c3AssignedDesk, c4Desk]
    bookings := [{ id := "b0", user_id := "u1", desk_id := "dB", booking_date := 10
                   status := .active, notes := none }] }

/-- Counterexample to C4 as stated: u1 has an active booking for day 10, yet
booking desk dA for day 10 returns USER_HAS_ASSIGNED_DESK (the assignment
check fires first), not USER_BOOKING_LIMIT_EXCEEDED. -/
theorem c4_counterexample :
    hasActiveBookingOn c4CeStore "u1" 10 = true ∧
    resultCode (createBooking 0 "b9" "u1" "dA" 10 none c4CeStore).1 =
      some "USER_HAS_ASSIGNED_DESK" ∧
    resultCode (createBooking 0 "b9" "u1" "dA" 10 none c4CeStore).1 ≠
      some "USER_BOOKING_LIMIT_EXCEEDED" := by
  refine ⟨rfl, rfl, ?_⟩
  decide

/-- The uniqueness-constraint test is insensitive to profile self-healing. -/
theorem bookingConflict_ensureUserProfile (u deskId : String) (date : Int) (s : Store) :
    bookingConflict (ensureUserProfile u s) deskId date = bookingConflict s deskId date := by
  unfold bookingConflict
  rw [ensureUserProfile_bookings]

/-- C5 (amended): for a requester who holds no assignment of their own and has
no active booking for the requested date, booking a desk permanently assigned
to a different user is rejected with DESK_PERMANENTLY_ASSIGNED and no booking
row is inserted. -/
theorem c5_desk_permanently_assigned_rejection (today : Int) (newId userId deskId : String)
    (date : Int) (notes : Option String) (s : Store) (desk : Desk) (owner : String)
    (hna : ∀ d ∈ s.desks, d.assigned_to_user_id ≠ some userId)
    (hnb : hasActiveBookingOn s userId date = false)
    (hfind : s.desks.find? (fun d => d.id == deskId) = some desk)
    (howner : desk.assigned_to_user_id = some owner)
    (hne : owner ≠ userId) :
    (createBooking today newId userId deskId date notes s).1 =
      .error { message := deskPermanentlyAssignedMessage desk.name
               code := some "DESK_PERMANENTLY_ASSIGNED" } ∧
    (createBooking today newId userId deskId date notes s).2.bookings = s.bookings ∧
    (createBooking today newId userId deskId date notes s).2.desks = s.desks := by
  have hfa : s.desks.find? (fun d => d.assigned_to_user_id == some userId) = none := by
    apply List.find?_eq_none.mpr
    intro x hx
    simpa using hna x hx
  refine ⟨?_, ?_, ?_⟩ <;>
    simp [createBooking, createBookingChecked, hfa, hfind, howner, hne,
      hasActiveBookingOn_ensureUserProfile, hnb, ensureUserProfile_desks,
      ensureUserProfile_bookings]

/-- Desk permanently assigned to u2, targeted by u1 in the C5 witness. -/
def c5Desk : Desk :=
  { id := "dC", name := "C05", is_available := true, assigned_to_user_id := some "u2" }

/-- C5 witness store: u1 has no assignment and no booking. -/
def c5Store : Store :=
  { users := ["u1", "u2"], desks := [c5Desk], bookings := [] }

/-- Witness for C5 (amended) at a concrete store. -/
theorem c5_desk_permanently_assigned_rejection_witness :
    (createBooking 0 "b1" "u1" "dC" 10 none c5Store).1 =
      .error { message := deskPermanentlyAssignedMessage "C05"
               code := some "DESK_PERMANENTLY_ASSIGNED" } ∧
    (createBooking 0 "b1" "u1" "dC" 10 none c5Store).2.bookings = c5Store.bookings := by
  have h := c5_desk_permanently_assigned_rejection 0 "b1" "u1" "dC" 10 none c5Store c5Desk
    "u2" (by decide) (by decide) (by decide) (by decide) (by decide)
  exact ⟨h.1, h.2.1⟩

/-- Store of the C5 counterexample: u1 already has an active booking on day
10, and desk dC is assigned to u2. -/
def c5CeStore : Store :=
  { users := ["u1", "u2"]
    desks := [c5Desk]
    bookings := [{ id := "b0", user_id := "u1", desk_id := "dB", booking_date := 10
                   status := .active, notes := none }] }

/-- Counterexample to C5 as stated: the target desk is assigned to a different
user, yet the request is rejected with USER_BOOKING_LIMIT_EXCEEDED (the
one-booking-per-day check fires first), not DESK_PERMANENTLY_ASSIGNED. -/
theorem c5_counterexample :
    c5Desk.assigned_to_user_id = some "u2" ∧
    resultCode (createBooking 0 "b9" "u1" "dC" 10 none c5CeStore).1 =
      some "USER_BOOKING_LIMIT_EXCEEDED" ∧
    resultCode (createBooking 0 "b9" "u1" "dC" 10 none c5CeStore).1 ≠
      some "DESK_PERMANENTLY_ASSIGNED" := by
  refine ⟨rfl, rfl, ?_⟩
  decide

/-- The success path of `createBooking`: when every application-level check
passes and the storage constraints accept the row, the booking is created and
prepended to the bookings table. -/
theorem createBooking_succeeds (today : Int) (newId userId deskId : String)
    (date : Int) (notes : Option String) (s : Store) (desk : Desk)
    (hna : ∀ d ∈ s.desks, d.assigned_to_user_id ≠ some userId)
    (hnb : hasActiveBookingOn s userId date = false)
    (hfind : s.desks.find? (fun d => d.id == deskId) = some desk)
    (hassign : desk.assigned_to_user_id = none)
    (hconf : bookingConflict s deskId date = false)
    (hdate : today ≤ date) :
    (createBooking today newId userId deskId date notes s).1 =
      .ok (newBookingRow newId userId deskId date notes) ∧
    (createBooking today newId userId deskId date notes s).2.bookings =
      newBookingRow newId userId deskId date notes :: s.bookings := by
  have hfa : s.desks.find? (fun d => d.assigned_to_user_id == some userId) = none := by
    apply List.find?_eq_none.mpr
    intro x hx
    simpa using hna x hx
  have hnlt : ¬ date < today := by omega
  refine ⟨?_, ?_⟩ <;>
    simp [createBooking, createBookingChecked, insertBooking, newBookingRow, hfa, hfind,
      hassign, hasActiveBookingOn_ensureUserProfile, hnb, ensureUserProfile_desks,
      ensureUserProfile_bookings, bookingConflict_ensureUserProfile, hconf, hnlt]

/-- C6 (amended): `createBooking` performs no date validation of its own; a
booking date strictly before today is rejected by the storage layer's check
constraint at insert time (code 23514), after the application-level store
checks, and a booking date greater than or equal to today (in particular
equal to today) is accepted when all other preconditions hold. -/
theorem c6_past_date_rejected_at_insert (today : Int) (newId userId deskId : String)
    (date : Int) (notes : Option String) (s : Store) (desk : Desk)
    (hna : ∀ d ∈ s.desks, d.assigned_to_user_id ≠ some userId)
    (hnb : hasActiveBookingOn s userId date = false)
    (hfind : s.desks.find? (fun d => d.id == deskId) = some desk)
    (hassign : desk.assigned_to_user_id = none) :
    (date < today →
      (createBooking today newId userId deskId date notes s).1 = .error checkViolationError ∧
      (createBooking today newId userId deskId date notes s).2.bookings = s.bookings) ∧
    (today ≤ date → bookingConflict s deskId date = false →
      (createBooking today newId userId deskId date notes s).1 =
        .ok (newBookingRow newId userId deskId date notes)) := by
  have hfa : s.desks.find? (fun d => d.assigned_to_user_id == some userId) = none := by
    apply List.find?_eq_none.mpr
    intro x hx
    simpa using hna x hx
  constructor
  · intro hlt
    refine ⟨?_, ?_⟩ <;>
      simp [createBooking, createBookingChecked, insertBooking, newBookingRow, hfa, hfind,
        hassign, hasActiveBookingOn_ensureUserProfile, hnb, ensureUserProfile_desks,
        ensureUserProfile_bookings, hlt]
  · intro hge hconf
    exact (createBooking_succeeds today newId userId deskId date notes s desk hna hnb
      hfind hassign hconf hge).1

/-- C6 witness store: one free desk, no bookings. -/
def c6Store : Store :=
  { users := ["u1"], desks := [c4Desk], bookings := [] }

/-- Witness for C6 (amended): with today = 5, booking day 5 succeeds and
booking day 4 fails with the storage check-constraint error. -/
theorem c6_past_date_rejected_at_insert_witness :
    (createBooking 5 "b1" "u1" "dA" 5 none c6Store).1 =
      .ok (newBookingRow "b1" "u1" "dA" 5 none) ∧
    (createBooking 5 "b2" "u1" "dA" 4 none c6Store).1 = .error checkViolationError := by
  have hOK := (c6_past_date_rejected_at_insert 5 "b1" "u1" "dA" 5 none c6Store c4Desk
    (by decide) (by decide) (by decide) (by decide)).2 (by omega) (by decide)
  have hERR := (c6_past_date_rejected_at_insert 5 "b2" "u1" "dA" 4 none c6Store c4Desk
    (by decide) (by decide) (by decide) (by decide)).1 (by omega)
  exact ⟨hOK, hERR.1⟩

/-- Counterexample to C6 as stated: on a date strictly before today the
allocator does not reject before its store calls; with an existing same-day
booking the store-read based one-booking-per-day check answers first, and on
a clean store the rejection is the storage constraint violation (23514)
raised by the insert itself. -/
theorem c6_counterexample :
    resultCode (createBooking 20 "b9" "u1" "dA" 10 none c4Store).1 =
      some "USER_BOOKING_LIMIT_EXCEEDED" ∧
    resultCode (createBooking 20 "b9" "u1" "dA" 10 none c6Store).1 = some "23514" := by
  exact ⟨rfl, rfl⟩

/-- C7 (amended): a desk with is_available = false never appears in the
resolver's output (for any date and viewer), but `createBooking` performs no
availability check: when the remaining preconditions hold it books a disabled
desk all the same. -/
theorem c7_disabled_desk (s : Store) :
    (∀ d ∈ getAllDesks s, d.is_available = true) ∧
    (∀ date uid dv, dv ∈ getDesksWithStatus date uid s → dv.desk.is_available = true) ∧
    (∀ today newId userId date notes desk,
      (∀ d ∈ s.desks, d.assigned_to_user_id ≠ some userId) →
      hasActiveBookingOn s userId date = false →
      s.desks.find? (fun d => d.id == desk.id) = some desk →
      desk.assigned_to_user_id = none →
      desk.is_available = false →
      bookingConflict s desk.id date = false →
      today ≤ date →
      (createBooking today newId userId desk.id date notes s).1 =
        .ok (newBookingRow newId userId desk.id date notes) ∧
      (createBooking today newId userId desk.id date notes s).2.bookings =
        newBookingRow newId userId desk.id date notes :: s.bookings) := by
  refine ⟨?_, ?_, ?_⟩
  · intro d hd
    have h1 := (mem_sortWith _ d _).mp hd
    exact (List.mem_filter.mp h1).2
  · intro date uid dv hdv
    rw [mem_getDesksWithStatus] at hdv
    obtain ⟨d, hd, hav, rfl⟩ := hdv
    exact hav
  · intro today newId userId date notes desk hna hnb hfind hassign hdis hconf hdate
    exact createBooking_succeeds today newId userId desk.id date notes s desk hna hnb
      hfind hassign hconf hdate

/-- Disabled desk of the C7 store. -/
def c7Desk : Desk :=
  { id := "dX", name := "X01", is_available := false, assigned_to_user_id := none }

/-- C7 store: a single disabled desk. -/
def c7Store : Store :=
  { users := ["u1"], desks := [c7Desk], bookings := [] }

/-- Witness for C7 (amended): the disabled desk is absent from the resolver's
output, yet the allocator books it. -/
theorem c7_disabled_desk_witness :
    getDesksWithStatus 5 none c7Store = [] ∧
    (createBooking 0 "b1" "u1" "dX" 5 none c7Store).1 =
      .ok (newBookingRow "b1" "u1" "dX" 5 none) := by
  have h := c7_disabled_desk c7Store
  exact ⟨by decide, (h.2.2 0 "b1" "u1" 5 none c7Desk (by decide) (by decide) (by decide)
    (by decide) (by decide) (by decide) (by decide)).1⟩

/-- Counterexample to C7 as stated: booking the disabled desk dX succeeds and
inserts a row, so book does not keep disabled desks out of the booking path. -/
theorem c7_counterexample :
    c7Desk.is_available = false ∧
    (createBooking 0 "b1" "u1" "dX" 5 none c7Store).1 =
      .ok (newBookingRow "b1" "u1" "dX" 5 none) ∧
    (createBooking 0 "b1" "u1" "dX" 5 none c7Store).2.bookings =
      [newBookingRow "b1" "u1" "dX" 5 none] := by
  exact ⟨rfl, rfl, rfl⟩

/-- C8: cancel performs unconditional physical deletion of the booking row by
id, with no ownership parameter in the allocator's write path, and is
idempotent in effect: it reports success even when no row matches, leaving
the store unchanged in that case. -/
theorem c8_cancel_unconditional_delete (bookingId : String) (s : Store) :
    (cancelBooking bookingId s).1 = true ∧
    (cancelBooking bookingId s).2.bookings = s.bookings.filter (fun b => b.id != bookingId) ∧
    (cancelBooking bookingId s).2.desks = s.desks ∧
    (∀ b, b ∈ (cancelBooking bookingId s).2.bookings ↔ b ∈ s.bookings ∧ b.id ≠ bookingId) ∧
    ((∀ b ∈ s.bookings, b.id ≠ bookingId) → (cancelBooking bookingId s).2 = s) := by
  refine ⟨rfl, rfl, rfl, ?_, ?_⟩
  · intro b
    simp [cancelBooking, List.mem_filter, bne_iff_ne]
  · intro hno
    have hfilter : s.bookings.filter (fun b => b.id != bookingId) = s.bookings := by
      apply List.filter_eq_self.mpr
      intro b hb
      simpa [bne_iff_ne] using hno b hb
    show { s with bookings := s.bookings.filter (fun b => b.id != bookingId) } = s
    rw [hfilter]

/-- C8 witness store: a single booking with id b0. -/
def c8Store : Store :=
  { users := ["u1"]
    desks := [c4Desk]
    bookings := [{ id := "b0", user_id := "u1", desk_id := "dA", booking_date := 10
                   status := .active, notes := none }] }

/-- Witness for C8: deleting an unknown id succeeds and changes nothing;
deleting the existing id succeeds and removes the row. -/
theorem c8_cancel_unconditional_delete_witness :
    (cancelBooking "zz" c8Store).1 = true ∧
    (cancelBooking "zz" c8Store).2 = c8Store ∧
    (cancelBooking "b0" c8Store).1 = true ∧
    (cancelBooking "b0" c8Store).2.bookings = [] := by
  have h1 := c8_cancel_unconditional_delete "zz" c8Store
  have h2 := c8_cancel_unconditional_delete "b0" c8Store
  exact ⟨h1.1, h1.2.2.2.2 (by decide), h2.1, by decide⟩

/-- C9: the retention sweep computes cutoff = today minus retentionDays,
deletes exactly the booking rows dated strictly before the cutoff, and
returns the count of deleted rows; purging with a 90-day window deletes a
booking dated exactly 91 days ago and preserves one dated exactly 90 days
ago. -/
theorem c9_purge_cutoff_boundary (retentionDays : Nat) (today : Int) (s : Store) :
    (cleanupOldBookings retentionDays today s).1.success = true ∧
    (cleanupOldBookings retentionDays today s).1.deletedCount =
      (s.bookings.filter (fun b => b.booking_date < today - (retentionDays : Int))).length ∧
    (∀ b, b ∈ (cleanupOldBookings retentionDays today s).2.bookings ↔
      b ∈ s.bookings ∧ ¬ b.booking_date < today - (retentionDays : Int)) ∧
    (∀ b ∈ s.bookings, b.booking_date = today - 91 →
      b ∉ (cleanupOldBookings 90 today s).2.bookings) ∧
    (∀ b ∈ s.bookings, b.booking_date = today - 90 →
      b ∈ (cleanupOldBookings 90 today s).2.bookings) := by
  refine ⟨rfl, rfl, ?_, ?_, ?_⟩
  · intro b
    simp [cleanupOldBookings, List.mem_filter]
  · intro b hb hbd
    simp only [cleanupOldBookings, List.mem_filter, Bool.not_eq_true', decide_eq_false_iff_not]
    rintro ⟨-, hcontra⟩
    apply hcontra
    rw [hbd]
    omega
  · intro b hb hbd
    simp only [cleanupOldBookings, List.mem_filter, Bool.not_eq_true', decide_eq_false_iff_not]
    refine ⟨hb, ?_⟩
    rw [hbd]
    omega

/-- C9 witness store: with today = 100, one booking dated 9 (91 days ago) and
one dated 10 (90 days ago). -/
def c9Store : Store :=
  { users := ["u1"]
    desks := [c4Desk]
    bookings := [{ id := "bOld", user_id := "u1", desk_id := "dA", booking_date := 9
                   status := .active, notes := none },
                 { id := "bEdge", user_id := "u1", desk_id := "dA", booking_date := 10
                   status := .active, notes := none }] }

/-- The booking 91 days old in the C9 store. -/
def c9Old : Booking :=
  { id := "bOld", user_id := "u1", desk_id := "dA", booking_date := 9
    status := .active, notes := none }

/-- The booking exactly 90 days old in the C9 store. -/
def c9Edge : Booking :=
  { id := "bEdge", user_id := "u1", desk_id := "dA", booking_date := 10
    status := .active, notes := none }

/-- Witness for C9 at the boundary store. -/
theorem c9_purge_cutoff_boundary_witness :
    (cleanupOldBookings 90 100 c9Store).1.deletedCount = 1 ∧
    c9Old ∉ (cleanupOldBookings 90 100 c9Store).2.bookings ∧
    c9Edge ∈ (cleanupOldBookings 90 100 c9Store).2.bookings := by
  have h := c9_purge_cutoff_boundary 90 100 c9Store
  refine ⟨?_, h.2.2.2.1 c9Old (by decide) (by decide),
    h.2.2.2.2 c9Edge (by decide) (by decide)⟩
  rw [h.2.1]
  decide

/-- C10 (amended): the read path of listBookings runs the retention sweep
first, so the read operates on the purged store; a failed purge does not
block the read, but its store error is silently discarded by the result
combination, which surfaces only the read's own error. -/
theorem c10_cleanup_before_read (userId : String) (lim : Nat) (today : Int) (s : Store) :
    (getUserBookingsWithCleanup userId lim true today s).2 =
      (cleanupOldBookings 90 today s).2 ∧
    (getUserBookingsWithCleanup userId lim true today s).1.bookings =
      getUserBookings userId lim (cleanupOldBookings 90 today s).2 ∧
    (∀ purge read, purge.success = false →
      combineCleanupRead true purge read =
        { bookings := read.bookings, cleanupDeleted := none, error := read.error }) := by
  refine ⟨rfl, rfl, ?_⟩
  intro purge read hp
  simp [combineCleanupRead, hp]

/-- A failed sweep outcome for the C10 witness and counterexample. -/
def c10FailedPurge : PurgeOutcome :=
  { success := false, deletedCount := 0
    error := some { message := "store unreachable", code := none } }

/-- A successful read outcome for the C10 witness and counterexample. -/
def c10Read : ReadOutcome :=
  { bookings := [c9Edge], error := none }

/-- Witness for C10 (amended) at concrete outcomes. -/
theorem c10_cleanup_before_read_witness :
    (getUserBookingsWithCleanup "u1" 10 true 100 c9Store).1.bookings =
      getUserBookings "u1" 10 (cleanupOldBookings 90 100 c9Store).2 ∧
    combineCleanupRead true c10FailedPurge c10Read =
      { bookings := c10Read.bookings, cleanupDeleted := none, error := c10Read.error } := by
  have h := c10_cleanup_before_read "u1" 10 100 c9Store
  exact ⟨h.2.1, h.2.2 c10FailedPurge c10Read rfl⟩

/-- Counterexample to C10 as stated: the purge fails with a store error, yet
the combined result surfaces no error at all (the read succeeded) and keeps
no trace of the purge failure. -/
theorem c10_counterexample :
    c10FailedPurge.success = false ∧
    c10FailedPurge.error = some { message := "store unreachable", code := none } ∧
    (combineCleanupRead true c10FailedPurge c10Read).error = none ∧
    (combineCleanupRead true c10FailedPurge c10Read).bookings = c10Read.bookings := by
  exact ⟨rfl, rfl, rfl, rfl⟩

end WorkplaceBooking
